import Mathlib

/-!
Verification of FlightTaskAutoLineSmoothVel (trajectory-shaping core of an
autonomous multicopter position controller).  Floating-point arithmetic of
the source is embedded as exact real arithmetic; a NaN ("unspecified")
scalar is embedded as the none case of Option.
-/

/-- Embedding of FLT_EPSILON from float.h, the machine epsilon of
single-precision floats, 2 to the power -23. -/
noncomputable def fltEps : ℝ := 1 / 8388608

/-- Embedding of math::constrain(val, min_val, max_val) from the PX4 math
library: if val is below min_val return min_val, else if above max_val
return max_val, else val.  The direct conditional form is kept because the
source applies it also with crossed bounds (min_val above max_val). -/
noncomputable def fconstrain (v lo hi : ℝ) : ℝ :=
  if v < lo then lo else if v > hi then hi else v

/-- Embedding of FlightTaskAutoLineSmoothVel::_constrainOneSide: constrain
val with a bound whose sign selects the side; the comparisons against
FLT_EPSILON are from the source. -/
noncomputable def constrainOneSide (val c : ℝ) : ℝ :=
  fconstrain val (if c < fltEps then c else 0) (if c > fltEps then c else 0)

/-- Clamp-to-interval operation written from the words of the spec: clamp
the value to the interval with endpoints min 0 bound and max 0 bound.  It
is compared with constrainOneSide, the operation the source implements. -/
noncomputable def specOneSideClamp (val c : ℝ) : ℝ :=
  max (min val (max 0 c)) (min 0 c)

/-- Embedding of FlightTaskAutoLineSmoothVel::_getMaxSpeedFromDistance with
the three parameters it reads (MPC_ACC_HOR, MPC_JERK_AUTO, MPC_XY_TRAJ_P)
made explicit arguments.  Solves 0 = v^2 - 2*acc*(x - v*2*acc/jerk) by the
quadratic formula and caps by the linear slope. -/
noncomputable def getMaxSpeedFromDistance (accHor jerkAuto xyTrajP dist : ℝ) : ℝ :=
  let b := 4 * accHor * accHor / jerkAuto
  let c := -2 * accHor * dist
  let maxSpeed := 0.5 * (-b + Real.sqrt (b * b - 4 * c))
  min maxSpeed (dist * xyTrajP)

lemma fconstrain_eq_clamp (v lo hi : ℝ) (h : lo ≤ hi) :
    fconstrain v lo hi = max (min v hi) lo := by
  unfold fconstrain
  rcases lt_or_le v lo with hv | hv
  · have h1 : min v hi ≤ lo := le_trans (min_le_left _ _) hv.le
    rw [if_pos hv, max_eq_right h1]
  · rw [if_neg (not_lt.mpr hv)]
    rcases lt_or_le hi v with hv2 | hv2
    · have h1 : min v hi = hi := min_eq_right hv2.le
      rw [if_pos hv2, h1, max_eq_left h]
    · have h1 : min v hi = v := min_eq_left hv2
      rw [if_neg (not_lt.mpr hv2), h1, max_eq_left hv]

lemma fconstrain_mem (v lo hi : ℝ) (h : lo ≤ hi) :
    lo ≤ fconstrain v lo hi ∧ fconstrain v lo hi ≤ hi := by
  rw [fconstrain_eq_clamp v lo hi h]
  constructor
  · exact le_max_right _ _
  · exact max_le (le_trans (min_le_right _ _) le_rfl) h

lemma getMaxSpeedFromDistance_nonneg {a j sl d : ℝ}
    (ha : 0 < a) (hj : 0 < j) (hsl : 0 ≤ sl) (hd : 0 ≤ d) :
    0 ≤ getMaxSpeedFromDistance a j sl d := by
  unfold getMaxSpeedFromDistance
  have hb : 0 ≤ 4 * a * a / j := by positivity
  refine le_min ?_ (by positivity)
  have harg : (4 * a * a / j) * (4 * a * a / j) ≤
      (4 * a * a / j) * (4 * a * a / j) - 4 * (-2 * a * d) := by nlinarith
  have hs : (4 * a * a / j) ≤
      Real.sqrt ((4 * a * a / j) * (4 * a * a / j) - 4 * (-2 * a * d)) := by
    calc (4 * a * a / j) = Real.sqrt ((4 * a * a / j) * (4 * a * a / j)) :=
          (Real.sqrt_mul_self hb).symm
      _ ≤ _ := Real.sqrt_le_sqrt harg
  nlinarith

/-- Claim C1: for every braking distance d at least 0 and all positive
horizontal acceleration limit, jerk limit, and slope parameter,
getMaxSpeedFromDistance is non-negative, monotonically non-decreasing in
the distance, and bounded above by distance times the slope parameter. -/
theorem C1_maxSpeedFromDistance_nonneg_mono_bounded (a j sl : ℝ)
    (ha : 0 < a) (hj : 0 < j) (hsl : 0 < sl) :
    (∀ d, 0 ≤ d → 0 ≤ getMaxSpeedFromDistance a j sl d ∧
      getMaxSpeedFromDistance a j sl d ≤ d * sl) ∧
    (∀ d₁ d₂, 0 ≤ d₁ → d₁ ≤ d₂ →
      getMaxSpeedFromDistance a j sl d₁ ≤ getMaxSpeedFromDistance a j sl d₂) := by
  constructor
  · intro d hd
    refine ⟨getMaxSpeedFromDistance_nonneg ha hj hsl.le hd, ?_⟩
    unfold getMaxSpeedFromDistance
    exact min_le_right _ _
  · intro d₁ d₂ hd₁ h12
    unfold getMaxSpeedFromDistance
    refine min_le_min ?_ ?_
    · have hs : Real.sqrt ((4 * a * a / j) * (4 * a * a / j) - 4 * (-2 * a * d₁)) ≤
          Real.sqrt ((4 * a * a / j) * (4 * a * a / j) - 4 * (-2 * a * d₂)) := by
        apply Real.sqrt_le_sqrt
        nlinarith
      nlinarith
    · nlinarith

/-- Witness for C1 at accHor 1, jerkAuto 4, slope 1, distance 1. -/
theorem C1_witness :
    0 ≤ getMaxSpeedFromDistance 1 4 1 1 ∧ getMaxSpeedFromDistance 1 4 1 1 ≤ 1 * 1 :=
  (C1_maxSpeedFromDistance_nonneg_mono_bounded 1 4 1 (by norm_num) (by norm_num)
    (by norm_num)).1 1 (by norm_num)

/-- Claim C8 counterexample: at value 1 and bound FLT_EPSILON the source
function returns 0 while the clamp to the interval with endpoints min 0
bound and max 0 bound returns FLT_EPSILON, so the claimed equality for
every value and every bound fails. -/
theorem C8_counterexample :
    constrainOneSide 1 fltEps = 0 ∧ specOneSideClamp 1 fltEps = fltEps ∧
      (0 : ℝ) ≠ fltEps := by
  have h1 : (0:ℝ) ≤ fltEps := by norm_num [fltEps]
  have h2 : fltEps ≤ (1:ℝ) := by norm_num [fltEps]
  refine ⟨?_, ?_, by norm_num [fltEps]⟩
  · norm_num [constrainOneSide, fconstrain, fltEps]
  · unfold specOneSideClamp
    rw [max_eq_right h1, min_eq_left h1, min_eq_right h2, max_eq_left h1]

/-- Claim C8 as amended: for every value and every bound that is either
non-positive or strictly above FLT_EPSILON, constrainOneSide equals the
clamp to the interval with endpoints min 0 bound and max 0 bound; bounds
in the half-open gap (0, FLT_EPSILON] are excluded, where the source
degenerates. -/
theorem C8_constrainOneSide_eq_clamp (v c : ℝ) (h : c ≤ 0 ∨ fltEps < c) :
    constrainOneSide v c = specOneSideClamp v c := by
  have heps : (0:ℝ) < fltEps := by norm_num [fltEps]
  unfold constrainOneSide specOneSideClamp
  rcases h with hc | hc
  · rw [if_pos (lt_of_le_of_lt hc heps), if_neg (not_lt.mpr (hc.trans heps.le)),
        fconstrain_eq_clamp v c 0 hc, max_eq_left hc, min_eq_right hc]
  · rw [if_neg (not_lt.mpr hc.le), if_pos hc,
        fconstrain_eq_clamp v 0 c (heps.le.trans hc.le),
        max_eq_right (heps.le.trans hc.le), min_eq_left (heps.le.trans hc.le)]

/-- Witness for the amended C8 at value 5 and bound 1. -/
theorem C8_witness : constrainOneSide 5 1 = specOneSideClamp 5 1 :=
  C8_constrainOneSide_eq_clamp 5 1 (Or.inr (by norm_num [fltEps]))

structure Vec2 where
  x : ℝ
  y : ℝ

noncomputable def Vec2.len (v : Vec2) : ℝ := Real.sqrt (v.x * v.x + v.y * v.y)

noncomputable def Vec2.dot (v w : Vec2) : ℝ := v.x * w.x + v.y * w.y

/-- Default epsilon of the matrix library's unit_or_zero. -/
noncomputable def unitEps : ℝ := 1 / 100000

/-- Modelled from the spec: unit_or_zero of the external matrix library is
not under src; the spec states that the unit vector of a (near) zero
vector is the zero vector, not NaN, and otherwise the vector divided by
its norm. -/
noncomputable def Vec2.unitOrZero (v : Vec2) : Vec2 :=
  if unitEps < v.len then ⟨v.x / v.len, v.y / v.len⟩ else ⟨0, 0⟩

structure Vec3 where
  x : ℝ
  y : ℝ
  z : ℝ

/-- Horizontal (first two) components of the difference of two 3-vectors,
as built by Vector2f of a Vector3f difference in the source. -/
noncomputable def Vec3.subXY (a b : Vec3) : Vec2 := ⟨a.x - b.x, a.y - b.y⟩

/-- State of one VelocitySmoothing axis (the per-axis jerk-limited
trajectory shaper).  Its class is outside src; the fields follow the spec:
current jerk, acceleration, velocity, position, the three mutable limits,
the velocity target and the remaining profile duration. -/
structure TrajAxis where
  jerk : ℝ
  accel : ℝ
  vel : ℝ
  pos : ℝ
  maxJerk : ℝ
  maxAccel : ℝ
  maxVel : ℝ
  velSp : ℝ
  totalTime : ℝ

/-- Modelled from the spec: VelocitySmoothing reset discards any
in-progress profile and sets the current acceleration, velocity and
position directly. -/
def TrajAxis.reset (a : TrajAxis) (accel vel pos : ℝ) : TrajAxis :=
  { a with accel := accel, vel := vel, pos := pos, totalTime := 0 }

/-- Modelled from the spec: overwrite only the current position, leaving
every other state component and the in-flight profile untouched. -/
def TrajAxis.setCurrentPosition (a : TrajAxis) (p : ℝ) : TrajAxis := { a with pos := p }

/-- Modelled from the spec: overwrite only the current velocity. -/
def TrajAxis.setCurrentVelocity (a : TrajAxis) (v : ℝ) : TrajAxis := { a with vel := v }

/-- Modelled from the spec: update the acceleration bound used by the next
integration. -/
def TrajAxis.setMaxAccel (a : TrajAxis) (m : ℝ) : TrajAxis := { a with maxAccel := m }

/-- Modelled from the spec: update the velocity bound. -/
def TrajAxis.setMaxVel (a : TrajAxis) (m : ℝ) : TrajAxis := { a with maxVel := m }

/-- Modelled from the spec: update the jerk bound. -/
def TrajAxis.setMaxJerk (a : TrajAxis) (m : ℝ) : TrajAxis := { a with maxJerk := m }

/-- Modelled from the spec: read accessor for the instantaneously active
jerk. -/
def TrajAxis.getCurrentJerk (a : TrajAxis) : ℝ := a.jerk

/-- Modelled from the spec: advance the jerk-limited profile by dt times
timeStretch of profile time; a simple bounded triple-integrator step
standing in for the closed-form S-curve of the external class (no claim
depends on its exact shape). -/
noncomputable def TrajAxis.integrate (a : TrajAxis) (dt stretch : ℝ) : TrajAxis :=
  let dts := dt * stretch
  let accelNew := fconstrain (a.accel + a.jerk * dts) (-a.maxAccel) a.maxAccel
  let velNew := fconstrain (a.vel + accelNew * dts) (-a.maxVel) a.maxVel
  let posNew := a.pos + velNew * dts
  { a with accel := accelNew, vel := velNew, pos := posNew,
           totalTime := max (a.totalTime - dts) 0 }

/-- Modelled from the spec: recompute the remaining profile duration for a
possibly changed velocity target without discarding the current state. -/
noncomputable def TrajAxis.updateDurations (a : TrajAxis) (velTarget : ℝ) : TrajAxis :=
  { a with velSp := velTarget, totalTime := |velTarget - a.vel| / a.maxJerk }

/-- Modelled from the spec: stretch the faster of the two horizontal axes
to complete together with the slower one (never shorten). -/
noncomputable def timeSynchronization (a b : TrajAxis) : TrajAxis × TrajAxis :=
  if a.totalTime < b.totalTime then ({ a with totalTime := b.totalTime }, b)
  else (a, { b with totalTime := a.totalTime })

/-- Tunable parameters read by FlightTaskAutoLineSmoothVel. -/
structure Params where
  accHor : ℝ
  jerkAuto : ℝ
  xyTrajP : ℝ
  zTrajP : ℝ
  altRad : ℝ
  xyVelMax : ℝ
  accUpMax : ℝ
  zVelMaxUp : ℝ
  accDownMax : ℝ
  zVelMaxDn : ℝ
  yawMode : ℤ

/-- Per-vehicle state of FlightTaskAutoLineSmoothVel: the three trajectory
axes, the raw/emitted setpoint fields (position and velocity components
may be NaN, embedded as none), the vehicle measurements, the waypoint
triple, cruise speed and acceptance radius, the stored reset counters and
the counters currently published by the local-position subscription. -/
structure TaskState where
  traj0 : TrajAxis
  traj1 : TrajAxis
  traj2 : TrajAxis
  posSp0 : Option ℝ
  posSp1 : Option ℝ
  posSp2 : Option ℝ
  velSp0 : Option ℝ
  velSp1 : Option ℝ
  velSp2 : Option ℝ
  accelSp : Vec3
  jerkSp : Vec3
  wantTakeoff : Bool
  yawAligned : Bool
  position : Vec3
  velocity : Vec3
  target : Vec3
  prevWp : Vec3
  nextWp : Vec3
  acceptRad : ℝ
  cruise : ℝ
  cntXy : ℕ
  cntVxy : ℕ
  cntZ : ℕ
  cntVz : ℕ
  subXy : ℕ
  subVxy : ℕ
  subZ : ℕ
  subVz : ℕ

/-- Embedding of FlightTaskAutoLineSmoothVel::_checkEkfResetCounters: the
four reset-counter comparisons, applied in source order. -/
def checkEkfResetCounters (s : TaskState) : TaskState :=
  let s1 := if s.subXy ≠ s.cntXy then
      { s with traj0 := s.traj0.setCurrentPosition s.position.x,
               traj1 := s.traj1.setCurrentPosition s.position.y,
               cntXy := s.subXy }
    else s
  let s2 := if s1.subVxy ≠ s1.cntVxy then
      { s1 with traj0 := s1.traj0.setCurrentVelocity s1.velocity.x,
                traj1 := s1.traj1.setCurrentVelocity s1.velocity.y,
                cntVxy := s1.subVxy }
    else s1
  let s3 := if s2.subZ ≠ s2.cntZ then
      { s2 with traj2 := s2.traj2.setCurrentPosition s2.position.z,
                cntZ := s2.subZ }
    else s2
  if s3.subVz ≠ s3.cntVz then
    { s3 with traj2 := s3.traj2.setCurrentVelocity s3.velocity.z,
              cntVz := s3.subVz }
  else s3

/-- Half angle alpha between the incoming and outgoing leg directions as
computed in _getSpeedAtTarget: arccos of the dot product of the unit (or
zero) vectors of target minus previous and target minus next, halved. -/
noncomputable def cornerHalfAngle (s : TaskState) : ℝ :=
  Real.arccos ((Vec3.subXY s.target s.prevWp).unitOrZero.dot
    (Vec3.subXY s.target s.nextWp).unitOrZero) / 2

/-- Centripetal-acceleration term of _getSpeedAtTarget: square root of
accHor over 2 times half the acceptance radius times tan of the half
angle. -/
noncomputable def cornerCentripetalSpeed (p : Params) (s : TaskState) : ℝ :=
  Real.sqrt (p.accHor / 2 * s.acceptRad / 2 * Real.tan (cornerHalfAngle s))

/-- Embedding of FlightTaskAutoLineSmoothVel::_getSpeedAtTarget. -/
noncomputable def getSpeedAtTarget (p : Params) (s : TaskState) : ℝ :=
  let distCurrentNext := (Vec3.subXY s.target s.nextWp).len
  let waypointOverlap := (Vec3.subXY s.target s.prevWp).len < s.acceptRad
  let yawAlignCheckPass := p.yawMode ≠ 4 ∨ s.yawAligned = true
  if distCurrentNext > 0.001 ∧ ¬waypointOverlap ∧ yawAlignCheckPass then
    min (min (cornerCentripetalSpeed p s)
      (getMaxSpeedFromDistance p.accHor p.jerkAuto p.xyTrajP distCurrentNext)) s.cruise
  else 0

/-- Claim C4: for every waypoint geometry and all other inputs, whenever
the horizontal distance from the current target to the previous waypoint
is below the target acceptance radius, getSpeedAtTarget returns exactly
0. -/
theorem C4_speedAtTarget_zero_on_overlap (p : Params) (s : TaskState)
    (h : (Vec3.subXY s.target s.prevWp).len < s.acceptRad) :
    getSpeedAtTarget p s = 0 := by
  simp only [getSpeedAtTarget]
  rw [if_neg]
  exact fun hc => hc.2.1 h

/-- A zeroed trajectory axis, used to build concrete states. -/
def axis0 : TrajAxis := ⟨0, 0, 0, 0, 0, 0, 0, 0, 0⟩

/-- A concrete base state with every field zeroed or unspecified, modified
per concrete scenario. -/
def baseState : TaskState where
  traj0 := axis0
  traj1 := axis0
  traj2 := axis0
  posSp0 := none
  posSp1 := none
  posSp2 := none
  velSp0 := none
  velSp1 := none
  velSp2 := none
  accelSp := ⟨0, 0, 0⟩
  jerkSp := ⟨0, 0, 0⟩
  wantTakeoff := false
  yawAligned := true
  position := ⟨0, 0, 0⟩
  velocity := ⟨0, 0, 0⟩
  target := ⟨0, 0, 0⟩
  prevWp := ⟨0, 0, 0⟩
  nextWp := ⟨0, 0, 0⟩
  acceptRad := 0
  cruise := 0
  cntXy := 0
  cntVxy := 0
  cntZ := 0
  cntVz := 0
  subXy := 0
  subVxy := 0
  subZ := 0
  subVz := 0

/-- A concrete parameter set with benign positive values. -/
def baseParams : Params where
  accHor := 1
  jerkAuto := 4
  xyTrajP := 1
  zTrajP := 1
  altRad := 1
  xyVelMax := 10
  accUpMax := 4
  zVelMaxUp := 3
  accDownMax := 3
  zVelMaxDn := 1
  yawMode := 0

/-- Witness for C4: overlapping previous waypoint and target at the
origin with acceptance radius 2 give speed 0. -/
theorem C4_witness :
    getSpeedAtTarget baseParams { baseState with acceptRad := 2 } = 0 := by
  apply C4_speedAtTarget_zero_on_overlap
  show (Vec3.subXY ⟨0,0,0⟩ ⟨0,0,0⟩).len < 2
  simp [Vec3.subXY, Vec2.len]

lemma Vec2.len_nonneg (v : Vec2) : 0 ≤ v.len := by
  unfold Vec2.len; exact Real.sqrt_nonneg _

lemma Vec2.mul_self_len (v : Vec2) : v.len * v.len = v.x * v.x + v.y * v.y := by
  unfold Vec2.len
  exact Real.mul_self_sqrt (add_nonneg (mul_self_nonneg v.x) (mul_self_nonneg v.y))

/-- Parameters for the collinear-opposite corner scenario. -/
noncomputable def p5 : Params := { baseParams with xyTrajP := 2 }

/-- State for the collinear-opposite corner scenario: previous waypoint and
next waypoint both at the origin, target at distance one, so the outgoing
leg exactly reverses the incoming leg. -/
noncomputable def s5 : TaskState :=
  { baseState with target := ⟨1, 0, 0⟩, acceptRad := 1/2, cruise := 10 }

lemma s5_tp : Vec3.subXY s5.target s5.prevWp = ⟨1, 0⟩ := by
  simp [s5, baseState, Vec3.subXY]

lemma s5_tn : Vec3.subXY s5.target s5.nextWp = ⟨1, 0⟩ := by
  simp [s5, baseState, Vec3.subXY]

lemma len_e1 : (Vec2.mk 1 0).len = 1 := by
  unfold Vec2.len
  norm_num

lemma unit_e1 : (Vec2.mk 1 0).unitOrZero = ⟨1, 0⟩ := by
  unfold Vec2.unitOrZero
  rw [len_e1, if_pos (by norm_num [unitEps])]
  norm_num

lemma s5_halfAngle : cornerHalfAngle s5 = 0 := by
  unfold cornerHalfAngle
  rw [s5_tp, s5_tn, unit_e1]
  show Real.arccos (Vec2.dot ⟨1, 0⟩ ⟨1, 0⟩) / 2 = 0
  have hd : Vec2.dot ⟨1, 0⟩ ⟨1, 0⟩ = 1 := by unfold Vec2.dot; norm_num
  rw [hd, Real.arccos_one, zero_div]

lemma s5_centripetal : cornerCentripetalSpeed p5 s5 = 0 := by
  unfold cornerCentripetalSpeed
  rw [s5_halfAngle, Real.tan_zero, mul_zero, Real.sqrt_zero]

lemma braking_1_4_2_at_1 : getMaxSpeedFromDistance 1 4 2 1 = 1 := by
  have h9 : Real.sqrt 9 = 3 := by
    rw [show (9:ℝ) = 3 ^ 2 by norm_num, Real.sqrt_sq (by norm_num : (0:ℝ) ≤ 3)]
  unfold getMaxSpeedFromDistance
  norm_num [h9, min_def]

lemma s5_speed : getSpeedAtTarget p5 s5 = 0 := by
  simp only [getSpeedAtTarget]
  rw [if_pos, s5_centripetal, s5_tn, len_e1]
  · show min (min 0 (getMaxSpeedFromDistance p5.accHor p5.jerkAuto p5.xyTrajP 1)) s5.cruise = 0
    have hb : getMaxSpeedFromDistance p5.accHor p5.jerkAuto p5.xyTrajP 1 = 1 := by
      show getMaxSpeedFromDistance 1 4 2 1 = 1
      exact braking_1_4_2_at_1
    rw [hb]
    show min (min 0 1) (10:ℝ) = 0
    norm_num
  · refine ⟨?_, ?_, Or.inl (by norm_num [p5, baseParams])⟩
    · rw [s5_tn, len_e1]; norm_num
    · rw [s5_tp, len_e1]
      show ¬((1:ℝ) < s5.acceptRad)
      norm_num [s5, baseState]

/-- Claim C5 counterexample: with the previous and next waypoints both at
the origin and the target one unit away, the incoming and outgoing legs
are exactly collinear opposite; getSpeedAtTarget is 0, but tan of the half
angle is 0 (not diverging), the centripetal term is itself 0, and it lies
strictly below the braking-distance term, so the minimum-of-three picks
the centripetal term rather than excluding it in favor of another finite
bound. -/
theorem C5_counterexample :
    (s5.nextWp.x - s5.target.x = -1 * (s5.target.x - s5.prevWp.x) ∧
     s5.nextWp.y - s5.target.y = -1 * (s5.target.y - s5.prevWp.y)) ∧
    getSpeedAtTarget p5 s5 = 0 ∧
    Real.tan (cornerHalfAngle s5) = 0 ∧
    cornerCentripetalSpeed p5 s5 = 0 ∧
    cornerCentripetalSpeed p5 s5 <
      getMaxSpeedFromDistance p5.accHor p5.jerkAuto p5.xyTrajP
        (Vec3.subXY s5.target s5.nextWp).len := by
  refine ⟨⟨by norm_num [s5, baseState], by norm_num [s5, baseState]⟩,
    s5_speed, ?_, s5_centripetal, ?_⟩
  · rw [s5_halfAngle, Real.tan_zero]
  · rw [s5_centripetal, s5_tn, len_e1]
    show (0:ℝ) < getMaxSpeedFromDistance p5.accHor p5.jerkAuto p5.xyTrajP 1
    have hb : getMaxSpeedFromDistance p5.accHor p5.jerkAuto p5.xyTrajP 1 = 1 := by
      show getMaxSpeedFromDistance 1 4 2 1 = 1
      exact braking_1_4_2_at_1
    rw [hb]; norm_num

/-- Claim C5 as amended: whenever the incoming leg (previous to target)
and the outgoing leg (target to next) are collinear opposite and both
horizontally nondegenerate, and the acceleration limit and jerk limit are
positive with non-negative slope parameter and cruise speed,
getSpeedAtTarget returns 0: the half angle is 0, so the centripetal term
is itself 0 (no diverging tangent arises; divergence would instead occur
for collinear same-direction legs) and the minimum-of-three selects it. -/
theorem C5_speedAtTarget_zero_collinear_opposite (p : Params) (s : TaskState)
    (μ : ℝ) (hμ : 0 < μ)
    (hx : s.target.x - s.nextWp.x = μ * (s.target.x - s.prevWp.x))
    (hy : s.target.y - s.nextWp.y = μ * (s.target.y - s.prevWp.y))
    (hp : unitEps < (Vec3.subXY s.target s.prevWp).len)
    (hn : unitEps < (Vec3.subXY s.target s.nextWp).len)
    (ha : 0 < p.accHor) (hj : 0 < p.jerkAuto) (hsl : 0 ≤ p.xyTrajP)
    (hcr : 0 ≤ s.cruise) :
    getSpeedAtTarget p s = 0 := by
  set v := Vec3.subXY s.target s.prevWp with hv
  have hvpos : 0 < v.len := lt_trans (by norm_num [unitEps]) hp
  have hw : Vec3.subXY s.target s.nextWp = ⟨μ * v.x, μ * v.y⟩ := by
    unfold Vec3.subXY
    have hvx : v.x = s.target.x - s.prevWp.x := by rw [hv]; rfl
    have hvy : v.y = s.target.y - s.prevWp.y := by rw [hv]; rfl
    rw [Vec2.mk.injEq, hvx, hvy]
    exact ⟨hx, hy⟩
  have hlenw : (Vec2.mk (μ * v.x) (μ * v.y)).len = μ * v.len := by
    unfold Vec2.len
    have harg : μ * v.x * (μ * v.x) + μ * v.y * (μ * v.y) =
        μ ^ 2 * (v.x * v.x + v.y * v.y) := by ring
    rw [harg, Real.sqrt_mul (sq_nonneg μ), Real.sqrt_sq hμ.le]
  have hnw : unitEps < μ * v.len := by rw [← hlenw, ← hw]; exact hn
  have huw : (Vec3.subXY s.target s.nextWp).unitOrZero = v.unitOrZero := by
    rw [hw]
    unfold Vec2.unitOrZero
    rw [hlenw, if_pos hnw, if_pos hp]
    show Vec2.mk (μ * v.x / (μ * v.len)) (μ * v.y / (μ * v.len)) = _
    rw [mul_div_mul_left v.x v.len (ne_of_gt hμ),
        mul_div_mul_left v.y v.len (ne_of_gt hμ)]
  have hdot : v.unitOrZero.dot v.unitOrZero = 1 := by
    unfold Vec2.unitOrZero
    rw [if_pos hp]
    show v.x / v.len * (v.x / v.len) + v.y / v.len * (v.y / v.len) = 1
    have hr : v.x / v.len * (v.x / v.len) + v.y / v.len * (v.y / v.len) =
        (v.x * v.x + v.y * v.y) / (v.len * v.len) := by ring
    rw [hr, ← Vec2.mul_self_len v,
        div_self (ne_of_gt (mul_pos hvpos hvpos))]
  have hang : cornerHalfAngle s = 0 := by
    unfold cornerHalfAngle
    rw [huw]
    show Real.arccos (v.unitOrZero.dot v.unitOrZero) / 2 = 0
    rw [hdot, Real.arccos_one, zero_div]
  have hcent : cornerCentripetalSpeed p s = 0 := by
    unfold cornerCentripetalSpeed
    rw [hang, Real.tan_zero, mul_zero, Real.sqrt_zero]
  simp only [getSpeedAtTarget]
  split_ifs with hg
  · rw [hcent]
    have hms : 0 ≤ getMaxSpeedFromDistance p.accHor p.jerkAuto p.xyTrajP
        (Vec3.subXY s.target s.nextWp).len :=
      getMaxSpeedFromDistance_nonneg ha hj hsl (Vec2.len_nonneg _)
    rw [min_eq_left hms, min_eq_left hcr]
  · rfl

/-- Witness for the amended C5 at the concrete collinear-opposite
scenario. -/
theorem C5_witness : getSpeedAtTarget p5 s5 = 0 :=
  C5_speedAtTarget_zero_collinear_opposite p5 s5 1 (by norm_num)
    (by norm_num [s5, baseState]) (by norm_num [s5, baseState])
    (by rw [s5_tp, len_e1]; norm_num [unitEps])
    (by rw [s5_tn, len_e1]; norm_num [unitEps])
    (by norm_num [p5, baseParams]) (by norm_num [p5, baseParams])
    (by norm_num [p5, baseParams]) (by norm_num [s5, baseState])

/-- Embedding of the has_reached_altitude test of _prepareSetpoints: the
absolute vertical tracking error is below NAV_MC_ALT_RAD; with an
unspecified (NaN) vertical position setpoint the float comparison is
false. -/
noncomputable def hasReachedAltitude (p : Params) (s : TaskState) : Bool :=
  match s.posSp2 with
  | some pz => decide (|pz - s.traj2.pos| < p.altRad)
  | none => false

/-- Embedding of the speed_sp_track computation of _prepareSetpoints:
braking-solver speed over the horizontal distance to the destination,
then math::constrain with, once altitude is reached, _getSpeedAtTarget as
lower bound and cruise speed as upper bound, else 0 and cruise speed. -/
noncomputable def speedSpTrackOf (p : Params) (s : TaskState) : ℝ :=
  let ptd : Vec2 := ⟨s.posSp0.getD 0 - s.traj0.pos, s.posSp1.getD 0 - s.traj1.pos⟩
  let sp := getMaxSpeedFromDistance p.accHor p.jerkAuto p.xyTrajP ptd.len
  if hasReachedAltitude p s then fconstrain sp (getSpeedAtTarget p s) s.cruise
  else fconstrain sp 0 s.cruise

/-- Embedding of the yaw-wait branch of _prepareSetpoints: the velocity
setpoint is zeroed on all three axes. -/
noncomputable def prepareYawWaitBranch (s : TaskState) : TaskState :=
  { s with velSp0 := some 0, velSp1 := some 0, velSp2 := some 0 }

/-- Embedding of the horizontal block of _prepareSetpoints: when both
horizontal position setpoints are specified, a velocity setpoint along the
unit direction to the destination at the track speed, each component
one-side constrained by an explicitly supplied velocity component. -/
noncomputable def prepareHorizontal (p : Params) (s : TaskState) : TaskState :=
  if s.posSp0.isSome ∧ s.posSp1.isSome then
    let ptd : Vec2 := ⟨s.posSp0.getD 0 - s.traj0.pos, s.posSp1.getD 0 - s.traj1.pos⟩
    let u := ptd.unitOrZero
    let speed := speedSpTrackOf p s
    let v0 := match s.velSp0 with
      | some c => constrainOneSide (u.x * speed) c
      | none => u.x * speed
    let v1 := match s.velSp1 with
      | some c => constrainOneSide (u.y * speed) c
      | none => u.y * speed
    { s with velSp0 := some v0, velSp1 := some v1 }
  else s

/-- Embedding of the vertical block of _prepareSetpoints: when the
vertical position setpoint is specified, a proportional velocity target,
one-side constrained by an explicitly supplied vertical velocity, and the
takeoff-intent flag from the comparison against -0.3. -/
noncomputable def verticalVelSp (p : Params) (s : TaskState) (pz : ℝ) : ℝ :=
  match s.velSp2 with
  | some c => constrainOneSide ((pz - s.traj2.pos) * p.zTrajP) c
  | none => (pz - s.traj2.pos) * p.zTrajP

/-- Embedding of the vertical block of _prepareSetpoints, continued: the
state update writing the vertical velocity setpoint and the takeoff-intent
flag. -/
noncomputable def prepareVertical (p : Params) (s : TaskState) : TaskState :=
  match s.posSp2 with
  | some pz =>
    let v2 := verticalVelSp p s pz
    { s with velSp2 := some v2, wantTakeoff := decide (v2 < -0.3) }
  | none => s

/-- Embedding of FlightTaskAutoLineSmoothVel::_prepareSetpoints: reset
reconciliation, takeoff-flag clear, then either the yaw-wait branch or the
horizontal and vertical blocks. -/
noncomputable def prepareSetpoints (p : Params) (s0 : TaskState) : TaskState :=
  let s := { checkEkfResetCounters s0 with wantTakeoff := false }
  if p.yawMode = 4 ∧ s.yawAligned = false then prepareYawWaitBranch s
  else prepareVertical p (prepareHorizontal p s)

/-- Embedding of FlightTaskAutoLineSmoothVel::_updateTrajConstraints: the
horizontal axes get the horizontal limits, the vertical axis selects the
ascending limits when the vertical velocity setpoint is negative (up in
the down-positive frame), else the descending limits; an unspecified
vertical velocity setpoint compares false, selecting the descending
limits. -/
noncomputable def updateTrajConstraints (p : Params) (s : TaskState) : TaskState :=
  let t0 := ((s.traj0.setMaxAccel p.accHor).setMaxVel p.xyVelMax).setMaxJerk p.jerkAuto
  let t1 := ((s.traj1.setMaxAccel p.accHor).setMaxVel p.xyVelMax).setMaxJerk p.jerkAuto
  let t2base := s.traj2.setMaxJerk p.jerkAuto
  let goingUp : Bool := match s.velSp2 with
    | some v => decide (v < 0)
    | none => false
  let t2 := if goingUp then (t2base.setMaxAccel p.accUpMax).setMaxVel p.zVelMaxUp
    else (t2base.setMaxAccel p.accDownMax).setMaxVel p.zVelMaxDn
  { s with traj0 := t0, traj1 := t1, traj2 := t2 }

/-- Embedding of FlightTaskAutoLineSmoothVel::_generateTrajectory: early
return holding every previous output when any velocity-setpoint component
is unspecified; otherwise time-stretch computation, per-axis integration,
constraint update, near-stop jerk relaxation, duration update, horizontal
time synchronization, and emission of the smooth setpoints. -/
noncomputable def generateTrajectory (p : Params) (dt : ℝ) (s : TaskState) : TaskState :=
  if s.velSp0.isSome ∧ s.velSp1.isSome ∧ s.velSp2.isSome then
    let v0 := s.velSp0.getD 0
    let v1 := s.velSp1.getD 0
    let v2 := s.velSp2.getD 0
    let droneToTrajXy : Vec2 := ⟨s.traj0.pos - s.position.x, s.traj1.pos - s.position.y⟩
    let velTrajXy : Vec2 := ⟨s.traj0.vel, s.traj1.vel⟩
    let positionError := droneToTrajXy.len
    let stretch0 := 1 - fconstrain (positionError * 0.5) 0 1
    let timeStretch := if droneToTrajXy.dot velTrajXy < 0 then 1 else stretch0
    let t0 := s.traj0.integrate dt timeStretch
    let t1 := s.traj1.integrate dt timeStretch
    let t2 := s.traj2.integrate dt timeStretch
    let jerkSpSmooth : Vec3 := ⟨t0.getCurrentJerk, t1.getCurrentJerk, t2.getCurrentJerk⟩
    let accelSpSmooth : Vec3 := ⟨t0.accel, t1.accel, t2.accel⟩
    let velSpSmooth : Vec3 := ⟨t0.vel, t1.vel, t2.vel⟩
    let posSpSmooth : Vec3 := ⟨t0.pos, t1.pos, t2.pos⟩
    let s1 := updateTrajConstraints p { s with traj0 := t0, traj1 := t1, traj2 := t2 }
    let s2 := if (Vec2.mk v0 v1).len < 0.01 * p.xyTrajP ∧
        (Vec2.mk accelSpSmooth.x accelSpSmooth.y).len < 0.2 ∧
        (Vec2.mk velSpSmooth.x velSpSmooth.y).len < 0.1 then
      { s1 with traj0 := s1.traj0.setMaxJerk 1, traj1 := s1.traj1.setMaxJerk 1 }
    else s1
    let s3 := { s2 with traj0 := s2.traj0.updateDurations v0,
                        traj1 := s2.traj1.updateDurations v1,
                        traj2 := s2.traj2.updateDurations v2 }
    let sync := timeSynchronization s3.traj0 s3.traj1
    { s3 with traj0 := sync.1, traj1 := sync.2,
              jerkSp := jerkSpSmooth, accelSp := accelSpSmooth,
              velSp0 := some velSpSmooth.x, velSp1 := some velSpSmooth.y,
              velSp2 := some velSpSmooth.z,
              posSp0 := some posSpSmooth.x, posSp1 := some posSpSmooth.y,
              posSp2 := some posSpSmooth.z }
  else s

/-- Embedding of FlightTaskAutoLineSmoothVel::reActivate: on ground the
two horizontal axes are reset to zero acceleration and velocity at the
current position, the vertical axis to zero acceleration and velocity 0.7
at the current altitude, and the stored reset counters are
reinitialized. -/
noncomputable def reActivate (s : TaskState) : TaskState :=
  { s with traj0 := s.traj0.reset 0 0 s.position.x,
           traj1 := s.traj1.reset 0 0 s.position.y,
           traj2 := s.traj2.reset 0 0.7 s.position.z,
           cntXy := s.subXy, cntVxy := s.subVxy,
           cntZ := s.subZ, cntVz := s.subVz }

lemma checkEkf_posSp2 (s : TaskState) :
    (checkEkfResetCounters s).posSp2 = s.posSp2 := by
  simp only [checkEkfResetCounters]
  split_ifs <;> rfl

lemma checkEkf_velSp2 (s : TaskState) :
    (checkEkfResetCounters s).velSp2 = s.velSp2 := by
  simp only [checkEkfResetCounters]
  split_ifs <;> rfl

lemma checkEkf_yawAligned (s : TaskState) :
    (checkEkfResetCounters s).yawAligned = s.yawAligned := by
  simp only [checkEkfResetCounters]
  split_ifs <;> rfl

lemma prepareHorizontal_frame (p : Params) (s : TaskState) :
    (prepareHorizontal p s).posSp2 = s.posSp2 ∧
    (prepareHorizontal p s).velSp2 = s.velSp2 ∧
    (prepareHorizontal p s).traj2 = s.traj2 ∧
    (prepareHorizontal p s).wantTakeoff = s.wantTakeoff := by
  simp only [prepareHorizontal]
  split_ifs <;> exact ⟨rfl, rfl, rfl, rfl⟩

lemma prepareVertical_some (p : Params) (s : TaskState) (pz : ℝ)
    (h : s.posSp2 = some pz) :
    prepareVertical p s = { s with velSp2 := some (verticalVelSp p s pz),
                                   wantTakeoff := decide (verticalVelSp p s pz < -0.3) } := by
  simp only [prepareVertical]
  rw [h]

lemma prepareVertical_none (p : Params) (s : TaskState)
    (h : s.posSp2 = none) : prepareVertical p s = s := by
  simp only [prepareVertical]
  rw [h]

lemma verticalVelSp_congr (p : Params) (s t : TaskState) (pz : ℝ)
    (h2 : s.velSp2 = t.velSp2) (h3 : s.traj2 = t.traj2) :
    verticalVelSp p s pz = verticalVelSp p t pz := by
  unfold verticalVelSp
  rw [h2, h3]

/-- Claim C6: if any of the three velocity-setpoint components is
unspecified when the generation step runs, generateTrajectory returns the
state unchanged: no axis is integrated, no durations are updated, and the
emitted position, velocity, acceleration and jerk setpoints are exactly
the previous values. -/
theorem C6_generateTrajectory_holds_previous (p : Params) (dt : ℝ) (s : TaskState)
    (h : s.velSp0 = none ∨ s.velSp1 = none ∨ s.velSp2 = none) :
    generateTrajectory p dt s = s := by
  have hne : ¬((s.velSp0.isSome = true) ∧ (s.velSp1.isSome = true) ∧
      (s.velSp2.isSome = true)) := by
    rcases h with h | h | h <;> simp [h]
  simp only [generateTrajectory]
  rw [if_neg hne]

/-- Concrete state with an unspecified y velocity setpoint for the C6
witness. -/
noncomputable def s6 : TaskState :=
  { baseState with velSp0 := some 1, velSp2 := some 2, position := ⟨4, 5, 6⟩ }

/-- Witness for C6: with the y velocity setpoint unspecified the
generation step leaves the state untouched. -/
theorem C6_witness : generateTrajectory baseParams 1 s6 = s6 :=
  C6_generateTrajectory_holds_previous baseParams 1 s6 (Or.inr (Or.inl rfl))

/-- Claim C7: on a cycle whose horizontal position reset counter differs
from the stored value (and no horizontal velocity edge), both horizontal
axes' current positions are overwritten with the measured vehicle position
while their velocities, accelerations and profile durations are unchanged
and the stored counter is updated; analogously for the horizontal
velocity, vertical position and vertical velocity counters. -/
theorem C7_resetCounters_frame (s : TaskState) :
    (s.subXy ≠ s.cntXy → s.subVxy = s.cntVxy →
      (checkEkfResetCounters s).traj0.pos = s.position.x ∧
      (checkEkfResetCounters s).traj1.pos = s.position.y ∧
      (checkEkfResetCounters s).traj0.vel = s.traj0.vel ∧
      (checkEkfResetCounters s).traj1.vel = s.traj1.vel ∧
      (checkEkfResetCounters s).traj0.accel = s.traj0.accel ∧
      (checkEkfResetCounters s).traj1.accel = s.traj1.accel ∧
      (checkEkfResetCounters s).traj0.totalTime = s.traj0.totalTime ∧
      (checkEkfResetCounters s).traj1.totalTime = s.traj1.totalTime ∧
      (checkEkfResetCounters s).cntXy = s.subXy) ∧
    (s.subVxy ≠ s.cntVxy → s.subXy = s.cntXy →
      (checkEkfResetCounters s).traj0.vel = s.velocity.x ∧
      (checkEkfResetCounters s).traj1.vel = s.velocity.y ∧
      (checkEkfResetCounters s).traj0.pos = s.traj0.pos ∧
      (checkEkfResetCounters s).traj1.pos = s.traj1.pos ∧
      (checkEkfResetCounters s).traj0.accel = s.traj0.accel ∧
      (checkEkfResetCounters s).traj1.accel = s.traj1.accel ∧
      (checkEkfResetCounters s).traj0.totalTime = s.traj0.totalTime ∧
      (checkEkfResetCounters s).traj1.totalTime = s.traj1.totalTime ∧
      (checkEkfResetCounters s).cntVxy = s.subVxy) ∧
    (s.subZ ≠ s.cntZ → s.subVz = s.cntVz →
      (checkEkfResetCounters s).traj2.pos = s.position.z ∧
      (checkEkfResetCounters s).traj2.vel = s.traj2.vel ∧
      (checkEkfResetCounters s).traj2.accel = s.traj2.accel ∧
      (checkEkfResetCounters s).traj2.totalTime = s.traj2.totalTime ∧
      (checkEkfResetCounters s).cntZ = s.subZ) ∧
    (s.subVz ≠ s.cntVz → s.subZ = s.cntZ →
      (checkEkfResetCounters s).traj2.vel = s.velocity.z ∧
      (checkEkfResetCounters s).traj2.pos = s.traj2.pos ∧
      (checkEkfResetCounters s).traj2.accel = s.traj2.accel ∧
      (checkEkfResetCounters s).traj2.totalTime = s.traj2.totalTime ∧
      (checkEkfResetCounters s).cntVz = s.subVz) := by
  by_cases h1 : s.subXy = s.cntXy <;> by_cases h2 : s.subVxy = s.cntVxy <;>
    by_cases h3 : s.subZ = s.cntZ <;> by_cases h4 : s.subVz = s.cntVz <;>
    simp [checkEkfResetCounters, TrajAxis.setCurrentPosition,
      TrajAxis.setCurrentVelocity, h1, h2, h3, h4]

/-- Concrete state for the C7 witness: horizontal-position and
vertical-position edges pending, velocity counters matching. -/
noncomputable def s7 : TaskState :=
  { baseState with traj0 := ⟨1, 2, 3, 4, 5, 6, 7, 8, 9⟩,
                   traj2 := ⟨11, 12, 13, 14, 15, 16, 17, 18, 19⟩,
                   position := ⟨30, 31, 32⟩, subXy := 1, subZ := 1 }

/-- Witness for C7: the horizontal-position edge overwrites the x
position to the measured 30 and keeps the velocity 3 and duration 9. -/
theorem C7_witness :
    (checkEkfResetCounters s7).traj0.pos = 30 ∧
    (checkEkfResetCounters s7).traj0.vel = 3 ∧
    (checkEkfResetCounters s7).traj0.totalTime = 9 ∧
    (checkEkfResetCounters s7).cntXy = 1 := by
  have h := (C7_resetCounters_frame s7).1 (by simp [s7, baseState])
    (by simp [s7, baseState])
  refine ⟨h.1.trans (by simp [s7, baseState]), h.2.2.1.trans (by simp [s7, baseState]),
    h.2.2.2.2.2.2.1.trans (by simp [s7, baseState]),
    h.2.2.2.2.2.2.2.2.trans (by simp [s7, baseState])⟩

/-- Claim C10: reActivate resets both horizontal axes to zero acceleration
and zero velocity at the current vehicle position and the vertical axis to
zero acceleration and the fixed downward velocity 0.7 (not the measured
vehicle velocity, which the seeded value ignores for every state) at the
current altitude. -/
theorem C10_reActivate_seeds (s : TaskState) :
    (reActivate s).traj0.accel = 0 ∧ (reActivate s).traj0.vel = 0 ∧
    (reActivate s).traj0.pos = s.position.x ∧
    (reActivate s).traj1.accel = 0 ∧ (reActivate s).traj1.vel = 0 ∧
    (reActivate s).traj1.pos = s.position.y ∧
    (reActivate s).traj2.accel = 0 ∧ (reActivate s).traj2.vel = 0.7 ∧
    (reActivate s).traj2.pos = s.position.z ∧ (0.7 : ℝ) ≠ 0 :=
  ⟨rfl, rfl, rfl, rfl, rfl, rfl, rfl, rfl, rfl, by norm_num⟩

lemma sqrt_twentyfive : Real.sqrt 25 = 5 := by
  rw [show (25:ℝ) = 5 ^ 2 by norm_num, Real.sqrt_sq (by norm_num : (0:ℝ) ≤ 5)]

/-- Concrete state for C2: destination 3 units ahead on x, altitude already
reached, previous waypoint overlapping the target so that the cornering
bound is 0. -/
noncomputable def s2 : TaskState :=
  { baseState with posSp0 := some 3, posSp1 := some 0, posSp2 := some 0,
                   acceptRad := 2, cruise := 5 }

lemma s2_hasReached : hasReachedAltitude baseParams s2 = true := by
  norm_num [hasReachedAltitude, s2, baseState, axis0, baseParams]

lemma s2_speedAtTarget : getSpeedAtTarget baseParams s2 = 0 := by
  simp only [getSpeedAtTarget]
  rw [if_neg]
  refine fun hc => hc.2.1 ?_
  have h0 : Vec3.subXY s2.target s2.prevWp = ⟨0, 0⟩ := by
    simp [s2, baseState, Vec3.subXY]
  rw [h0]
  have hl : (Vec2.mk 0 0).len = 0 := by
    norm_num [Vec2.len, Real.sqrt_zero]
  rw [hl]
  norm_num [s2, baseState]

lemma braking_1_4_1_at_3 : getMaxSpeedFromDistance 1 4 1 3 = 2 := by
  unfold getMaxSpeedFromDistance
  norm_num [sqrt_twentyfive, min_def]

lemma len_3_0 : (Vec2.mk 3 0).len = 3 := by
  unfold Vec2.len
  rw [show (3:ℝ) * 3 + 0 * 0 = 3 ^ 2 by norm_num,
    Real.sqrt_sq (by norm_num : (0:ℝ) ≤ 3)]

lemma s2_track : speedSpTrackOf baseParams s2 = 2 := by
  have hptd : (Vec2.mk (s2.posSp0.getD 0 - s2.traj0.pos)
      (s2.posSp1.getD 0 - s2.traj1.pos)) = ⟨3, 0⟩ := by
    simp [s2, baseState, axis0]
  simp only [speedSpTrackOf, hptd, s2_hasReached, len_3_0, if_true]
  rw [s2_speedAtTarget]
  have hb : getMaxSpeedFromDistance baseParams.accHor baseParams.jerkAuto
      baseParams.xyTrajP 3 = 2 := by
    show getMaxSpeedFromDistance 1 4 1 3 = 2
    exact braking_1_4_1_at_3
  rw [hb]
  norm_num [fconstrain, s2, baseState]

/-- Claim C2 counterexample: in a cycle with both horizontal position
targets specified and altitude reached, the cornering bound is 0 yet the
track speed is 2, exceeding it: math::constrain uses _getSpeedAtTarget as
the lower bound, not as a cap. -/
theorem C2_counterexample :
    hasReachedAltitude baseParams s2 = true ∧
    s2.posSp0.isSome = true ∧ s2.posSp1.isSome = true ∧
    getSpeedAtTarget baseParams s2 = 0 ∧
    speedSpTrackOf baseParams s2 = 2 ∧
    getSpeedAtTarget baseParams s2 < speedSpTrackOf baseParams s2 := by
  refine ⟨s2_hasReached, by simp [s2, baseState], by simp [s2, baseState],
    s2_speedAtTarget, s2_track, ?_⟩
  rw [s2_speedAtTarget, s2_track]
  norm_num

/-- Claim C2 as amended: once altitude is reached the braking-solver track
speed is constrained to the interval from the cornering bound (acting as a
lower bound, not a cap) up to the cruise speed, provided the cornering
bound does not exceed cruise; while altitude is not yet reached it is
constrained to the interval from 0 to cruise. -/
theorem C2_trackSpeed_bounds (p : Params) (s : TaskState) :
    (hasReachedAltitude p s = true → getSpeedAtTarget p s ≤ s.cruise →
      getSpeedAtTarget p s ≤ speedSpTrackOf p s ∧ speedSpTrackOf p s ≤ s.cruise) ∧
    (hasReachedAltitude p s = false → 0 ≤ s.cruise →
      0 ≤ speedSpTrackOf p s ∧ speedSpTrackOf p s ≤ s.cruise) := by
  constructor
  · intro h hle
    simp only [speedSpTrackOf, h, if_true]
    exact fconstrain_mem _ _ _ hle
  · intro h hle
    simp only [speedSpTrackOf, h, Bool.false_eq_true, if_false]
    exact fconstrain_mem _ _ _ hle

/-- Witness for the amended C2 at the concrete state of the
counterexample. -/
theorem C2_witness :
    getSpeedAtTarget baseParams s2 ≤ speedSpTrackOf baseParams s2 ∧
    speedSpTrackOf baseParams s2 ≤ s2.cruise :=
  (C2_trackSpeed_bounds baseParams s2).1 s2_hasReached
    (by rw [s2_speedAtTarget]; norm_num [s2, baseState])

/-- Parameters with the align-heading-first yaw mode for C3. -/
noncomputable def p3 : Params := { baseParams with yawMode := 4 }

/-- State with a specified vertical position target and unaligned heading
for C3. -/
noncomputable def s3 : TaskState :=
  { baseState with posSp2 := some 5, yawAligned := false }

/-- Claim C3 counterexample: in a yaw-wait cycle with a specified vertical
position target the vertical velocity setpoint is forced to 0, not to the
proportional value 5: the source zeroes all three velocity components and
skips the vertical proportional law, while the claim says only the
horizontal target is forced to zero. -/
theorem C3_counterexample :
    s3.posSp2 = some 5 ∧
    (prepareSetpoints p3 s3).velSp2 = some 0 ∧
    (5 - (checkEkfResetCounters s3).traj2.pos) * p3.zTrajP = 5 ∧
    ((0:ℝ) ≠ 5) := by
  refine ⟨by simp [s3, baseState], ?_, ?_, by norm_num⟩
  · simp only [prepareSetpoints]
    rw [if_pos]
    · rfl
    · refine ⟨by simp [p3, baseParams], ?_⟩
      simp [checkEkf_yawAligned, s3, baseState]
  · have h0 : (checkEkfResetCounters s3).traj2.pos = 0 := by
      simp [checkEkfResetCounters, s3, baseState, axis0]
    rw [h0]
    norm_num [p3, baseParams]

/-- Claim C3 as amended: outside the yaw-wait branch, a specified vertical
position target produces the proportional vertical velocity target,
one-side constrained by an explicitly supplied vertical velocity (the
value verticalVelSp of the reset-reconciled state); in yaw-wait cycles
all three velocity-setpoint components are forced to 0 and the
proportional law is skipped. -/
theorem C3_vertical_P_law (p : Params) (s : TaskState) (pz : ℝ)
    (hz : s.posSp2 = some pz) :
    (¬(p.yawMode = 4 ∧ s.yawAligned = false) →
      (prepareSetpoints p s).velSp2 =
        some (verticalVelSp p
          { checkEkfResetCounters s with wantTakeoff := false } pz)) ∧
    ((p.yawMode = 4 ∧ s.yawAligned = false) →
      (prepareSetpoints p s).velSp0 = some 0 ∧
      (prepareSetpoints p s).velSp1 = some 0 ∧
      (prepareSetpoints p s).velSp2 = some 0) := by
  have hyA : ({ checkEkfResetCounters s with
      wantTakeoff := false } : TaskState).yawAligned = s.yawAligned := by
    simp [checkEkf_yawAligned]
  constructor
  · intro hyaw
    simp only [prepareSetpoints]
    rw [if_neg (by rw [hyA]; exact hyaw)]
    have hfr := prepareHorizontal_frame p
      { checkEkfResetCounters s with wantTakeoff := false }
    have hz2 : (prepareHorizontal p
        { checkEkfResetCounters s with wantTakeoff := false }).posSp2 = some pz := by
      rw [hfr.1]
      show (checkEkfResetCounters s).posSp2 = some pz
      rw [checkEkf_posSp2]
      exact hz
    rw [prepareVertical_some p _ pz hz2]
    exact congrArg some (verticalVelSp_congr p _ _ pz hfr.2.1 hfr.2.2.1)
  · intro hyaw
    simp only [prepareSetpoints]
    rw [if_pos ⟨hyaw.1, by rw [hyA]; exact hyaw.2⟩]
    exact ⟨rfl, rfl, rfl⟩

/-- State with only a vertical position target for the C3 witness. -/
noncomputable def s3w : TaskState := { baseState with posSp2 := some 2 }

/-- Witness for the amended C3: outside yaw-wait, target altitude 2 and
trajectory altitude 0 with gain 1 give vertical velocity setpoint 2. -/
theorem C3_witness : (prepareSetpoints baseParams s3w).velSp2 = some 2 := by
  have h := (C3_vertical_P_law baseParams s3w 2 (by simp [s3w, baseState])).1
    (by simp [baseParams])
  rw [h]
  norm_num [verticalVelSp, checkEkfResetCounters, s3w, baseState, axis0, baseParams]

/-- Claim C9 as amended: after a setpoint-preparation cycle the
takeoff-intent flag is true exactly when the cycle is not a yaw-wait
cycle, the vertical position target is specified, and the resulting
vertical velocity setpoint is below -0.3; with an unspecified vertical
position target the flag stays false even if an explicitly supplied
vertical velocity commands faster upward motion. -/
theorem C9_wantTakeoff_iff (p : Params) (s : TaskState) :
    (prepareSetpoints p s).wantTakeoff = true ↔
      (¬(p.yawMode = 4 ∧ s.yawAligned = false) ∧ s.posSp2.isSome = true ∧
        ∃ v, (prepareSetpoints p s).velSp2 = some v ∧ v < -(0.3:ℝ)) := by
  have hyA : ({ checkEkfResetCounters s with
      wantTakeoff := false } : TaskState).yawAligned = s.yawAligned := by
    simp [checkEkf_yawAligned]
  by_cases hyaw : p.yawMode = 4 ∧ s.yawAligned = false
  · have hres : prepareSetpoints p s = prepareYawWaitBranch
        { checkEkfResetCounters s with wantTakeoff := false } := by
      simp only [prepareSetpoints]
      rw [if_pos ⟨hyaw.1, by rw [hyA]; exact hyaw.2⟩]
    rw [hres]
    simp [prepareYawWaitBranch, hyaw]
  · have hres : prepareSetpoints p s = prepareVertical p (prepareHorizontal p
        { checkEkfResetCounters s with wantTakeoff := false }) := by
      simp only [prepareSetpoints]
      rw [if_neg (by rw [hyA]; exact hyaw)]
    have hfr := prepareHorizontal_frame p
      { checkEkfResetCounters s with wantTakeoff := false }
    rw [hres]
    cases hp2 : s.posSp2 with
    | none =>
      have hp2n : (prepareHorizontal p { checkEkfResetCounters s with
          wantTakeoff := false }).posSp2 = none := by
        rw [hfr.1]
        show (checkEkfResetCounters s).posSp2 = none
        rw [checkEkf_posSp2]
        exact hp2
      rw [prepareVertical_none p _ hp2n, hfr.2.2.2]
      simp
    | some pz =>
      have hp2s : (prepareHorizontal p { checkEkfResetCounters s with
          wantTakeoff := false }).posSp2 = some pz := by
        rw [hfr.1]
        show (checkEkfResetCounters s).posSp2 = some pz
        rw [checkEkf_posSp2]
        exact hp2
      rw [prepareVertical_some p _ pz hp2s]
      simp [hyaw]

/-- State with only an explicitly supplied upward vertical velocity for
the C9 counterexample. -/
noncomputable def s9 : TaskState := { baseState with velSp2 := some (-1) }

/-- Claim C9 counterexample: with the vertical position target
unspecified and an explicit vertical velocity of -1 the resulting
vertical velocity setpoint commands upward motion past the -0.3 threshold
yet the takeoff-intent flag stays false, so the flag is not set exactly
when the resulting vertical velocity target commands such motion. -/
theorem C9_counterexample :
    (prepareSetpoints baseParams s9).wantTakeoff = false ∧
    (prepareSetpoints baseParams s9).velSp2 = some (-1) ∧
    ((-1:ℝ) < -(0.3:ℝ)) := by
  have hres : prepareSetpoints baseParams s9 = prepareVertical baseParams
      (prepareHorizontal baseParams
        { checkEkfResetCounters s9 with wantTakeoff := false }) := by
    simp only [prepareSetpoints]
    rw [if_neg]
    exact fun hc => by simpa [baseParams] using hc.1
  have hfr := prepareHorizontal_frame baseParams
    { checkEkfResetCounters s9 with wantTakeoff := false }
  have hp2n : (prepareHorizontal baseParams { checkEkfResetCounters s9 with
      wantTakeoff := false }).posSp2 = none := by
    rw [hfr.1]
    show (checkEkfResetCounters s9).posSp2 = none
    rw [checkEkf_posSp2]
    simp [s9, baseState]
  refine ⟨?_, ?_, by norm_num⟩
  · rw [hres, prepareVertical_none _ _ hp2n, hfr.2.2.2]
  · rw [hres, prepareVertical_none _ _ hp2n, hfr.2.1]
    show (checkEkfResetCounters s9).velSp2 = some (-1)
    rw [checkEkf_velSp2]
    simp [s9, baseState]
